import Mathlib

/-!
Shallow embedding of the Cloud-Native-Analytics-Pipeline transformation jobs.

The embedded code comes from:
* `src/scripts/transform_nyc_taxi_data.py` (`NYCTaxiTransformer`): the
  cleaning rules (`clean_data`), the derived columns
  (`add_derived_columns`) and the quality flags
  (`add_data_quality_flags`);
* `src/scripts/transform_nyc_taxi_glue.py` (`NYCTaxiGlueETL`): the second
  variant of the time-of-day and payment-method derivations;
* `src/scripts/create_curated_aggregations.py` (`NYCTaxiCuratedETL`): the
  daily-summary and location-analysis grouped views.

Spark doubles are modelled as rationals, timestamps as unix seconds
(integers), nullable columns as `Option`.  Spark's `round(x, n)`
(HALF_UP) is modelled by `sparkRound`.
-/

/-- Spark's ROUND HALF_UP to an integer: half-way cases round away from
zero. -/
def roundHalfUp (q : ℚ) : ℤ :=
  if 0 ≤ q then ⌊q + 1/2⌋ else -⌊-q + 1/2⌋

/-- Spark's `round(x, n)`: round to `n` decimal places, HALF_UP. -/
def sparkRound (n : ℕ) (q : ℚ) : ℚ :=
  (roundHalfUp (q * 10 ^ n) : ℚ) / 10 ^ n

lemma roundHalfUp_nonneg {q : ℚ} (h : 0 ≤ q) : 0 ≤ roundHalfUp q := by
  unfold roundHalfUp
  rw [if_pos h]
  have : (0 : ℚ) ≤ q + 1/2 := by linarith
  exact_mod_cast Int.le_floor.mpr (by exact_mod_cast this)

lemma roundHalfUp_le_int {q : ℚ} {m : ℤ} (h0 : 0 ≤ q) (h : q ≤ m) :
    roundHalfUp q ≤ m := by
  unfold roundHalfUp
  rw [if_pos h0]
  have hle : q + 1/2 < (m : ℚ) + 1 := by linarith
  have h2 : ⌊q + 1/2⌋ < m + 1 := by
    rw [Int.floor_lt]
    push_cast
    linarith
  omega

lemma sparkRound_nonneg {q : ℚ} (n : ℕ) (h : 0 ≤ q) :
    0 ≤ sparkRound n q := by
  unfold sparkRound
  have h1 : (0 : ℚ) ≤ (roundHalfUp (q * 10 ^ n) : ℚ) := by
    exact_mod_cast roundHalfUp_nonneg (by positivity)
  positivity

lemma sparkRound_le_hundred {q : ℚ} (n : ℕ) (h0 : 0 ≤ q) (h : q ≤ 100) :
    sparkRound n q ≤ 100 := by
  unfold sparkRound
  have hb : q * 10 ^ n ≤ ((100 * 10 ^ n : ℤ) : ℚ) := by
    push_cast
    have hp : (0 : ℚ) < 10 ^ n := by positivity
    nlinarith
  have h1 : roundHalfUp (q * 10 ^ n) ≤ 100 * 10 ^ n :=
    roundHalfUp_le_int (by positivity) hb
  have hp : (0 : ℚ) < 10 ^ n := by positivity
  rw [div_le_iff₀ hp]
  calc (roundHalfUp (q * 10 ^ n) : ℚ) ≤ ((100 * 10 ^ n : ℤ) : ℚ) := by
        exact_mod_cast h1
    _ = 100 * 10 ^ n := by push_cast; ring

/-!
### Raw trip records and the Validator/Cleaner

`RawTrip` is a row of the raw input as read by
`NYCTaxiTransformer.read_raw_data`: nullable pickup/dropoff timestamps
(unix seconds), nullable passenger count, and the numeric fare columns.
`clean_data` is `NYCTaxiTransformer.clean_data`
(`src/scripts/transform_nyc_taxi_data.py`, lines 96-144): five row
filters and one imputation, in source order.
-/

structure RawTrip where
  tpep_pickup_datetime : Option ℤ
  tpep_dropoff_datetime : Option ℤ
  passenger_count : Option ℤ
  trip_distance : ℚ
  fare_amount : ℚ
  tip_amount : ℚ
  total_amount : ℚ
  payment_type : ℤ
deriving DecidableEq, Repr

/-- Thresholds set in `NYCTaxiTransformer.__init__`. -/
def MAX_TRIP_DISTANCE : ℚ := 100

def MIN_FARE_AMOUNT : ℚ := 0

def MAX_FARE_AMOUNT : ℚ := 500

/-- The passenger-count imputation: `when(isNull | == 0, 1).otherwise(col)`. -/
def imputePassengerCount (r : RawTrip) : RawTrip :=
  if r.passenger_count = none ∨ r.passenger_count = some 0 then
    { r with passenger_count := some 1 }
  else r

/-- Spark's `col("tpep_pickup_datetime") < col("tpep_dropoff_datetime")`
filter: a null on either side makes the predicate non-true, so the row is
dropped. -/
def pickupBeforeDropoff (r : RawTrip) : Bool :=
  match r.tpep_pickup_datetime, r.tpep_dropoff_datetime with
  | some p, some d => decide (p < d)
  | _, _ => false

/-- `NYCTaxiTransformer.clean_data`: the five filters and the imputation in
source order. -/
def clean_data (rows : List RawTrip) : List RawTrip :=
  let s1 := rows.filter fun r =>
    r.tpep_pickup_datetime.isSome && r.tpep_dropoff_datetime.isSome
  let s2 := s1.filter fun r =>
    decide (0 ≤ r.trip_distance) && decide (r.trip_distance ≤ MAX_TRIP_DISTANCE)
  let s3 := s2.filter fun r =>
    decide (MIN_FARE_AMOUNT ≤ r.fare_amount) && decide (r.fare_amount ≤ MAX_FARE_AMOUNT)
  let s4 := s3.filter fun r => decide (0 ≤ r.total_amount)
  let s5 := s4.map imputePassengerCount
  s5.filter pickupBeforeDropoff

/-- The cleaning report logged at the end of `clean_data` (lines 135-142).
`removal_percentage = (removed_count / original_count) * 100` raises
`ZeroDivisionError` in Python when `original_count = 0`; that fatal case is
modelled as `none`. -/
structure CleaningReport where
  original_count : ℕ
  final_count : ℕ
  removed_count : ℤ
  removal_percentage : ℚ
deriving DecidableEq, Repr

def cleanReport (rows : List RawTrip) : Option CleaningReport :=
  let original_count := rows.length
  let final_count := (clean_data rows).length
  let removed_count : ℤ := (original_count : ℤ) - (final_count : ℤ)
  if original_count = 0 then none
  else some
    { original_count := original_count
      final_count := final_count
      removed_count := removed_count
      removal_percentage := (removed_count : ℚ) / (original_count : ℚ) * 100 }

/-!
### Feature Deriver (`NYCTaxiTransformer.add_derived_columns`)

Rows reaching this stage have non-null timestamps (the Cleaner removed the
nulls), so the validated row type `Trip` carries plain integers.
-/

structure Trip where
  tpep_pickup_datetime : ℤ
  tpep_dropoff_datetime : ℤ
  passenger_count : ℤ
  trip_distance : ℚ
  fare_amount : ℚ
  tip_amount : ℚ
  total_amount : ℚ
  payment_type : ℤ
deriving DecidableEq, Repr

/-- `hour(ts)` for a unix-seconds timestamp (UTC session timezone). -/
def hourOf (ts : ℤ) : ℕ :=
  (ts % 86400).toNat / 3600

/-- `dayofweek(ts)`: 1 = Sunday, ..., 7 = Saturday (the epoch day was a
Thursday, value 5). -/
def dayOfWeekOf (ts : ℤ) : ℤ :=
  (ts.fdiv 86400 + 4) % 7 + 1

/-- `trip_duration_minutes = round((unix(dropoff) - unix(pickup)) / 60, 2)`. -/
def tripDurationMinutes (t : Trip) : ℚ :=
  sparkRound 2 (((t.tpep_dropoff_datetime - t.tpep_pickup_datetime : ℤ) : ℚ) / 60)

/-- `speed_mph = when(duration > 0, round(distance / duration * 60, 2)).otherwise(0)`. -/
def speedMph (t : Trip) : ℚ :=
  if 0 < tripDurationMinutes t then
    sparkRound 2 (t.trip_distance / tripDurationMinutes t * 60)
  else 0

/-- `fare_per_mile = when(distance > 0, round(fare / distance, 2)).otherwise(0)`. -/
def farePerMile (t : Trip) : ℚ :=
  if 0 < t.trip_distance then sparkRound 2 (t.fare_amount / t.trip_distance)
  else 0

/-- `tip_percentage = when(fare > 0, round(tip / fare * 100, 2)).otherwise(0)`. -/
def tipPercentage (t : Trip) : ℚ :=
  if 0 < t.fare_amount then sparkRound 2 (t.tip_amount / t.fare_amount * 100)
  else 0

/-- The `time_of_day_category` when-chain of
`NYCTaxiTransformer.add_derived_columns` (lines 170-176), using
`between`, which is inclusive on both ends. -/
def time_of_day_category (h : ℕ) : String :=
  if 6 ≤ h ∧ h ≤ 11 then "Morning"
  else if 12 ≤ h ∧ h ≤ 17 then "Afternoon"
  else if 18 ≤ h ∧ h ≤ 22 then "Evening"
  else "Night"

/-- The `time_of_day_category` when-chain of
`NYCTaxiGlueETL.add_business_transformations`
(`src/scripts/transform_nyc_taxi_glue.py`, lines 134-140), with
half-open upper bounds. -/
def time_of_day_category_glue (h : ℕ) : String :=
  if 6 ≤ h ∧ h < 12 then "Morning"
  else if 12 ≤ h ∧ h < 18 then "Afternoon"
  else if 18 ≤ h ∧ h < 22 then "Evening"
  else "Night"

/-- `day_type = when(dayofweek isin [1, 7], "Weekend").otherwise("Weekday")`. -/
def dayType (dow : ℤ) : String :=
  if dow = 1 ∨ dow = 7 then "Weekend" else "Weekday"

/-- The `payment_method` when-chain of
`NYCTaxiTransformer.add_derived_columns` (lines 200-207): only codes 1-4
are mapped, everything else falls to `"Unknown"`. -/
def payment_method (payment_type : ℤ) : String :=
  if payment_type = 1 then "Credit Card"
  else if payment_type = 2 then "Cash"
  else if payment_type = 3 then "No Charge"
  else if payment_type = 4 then "Dispute"
  else "Unknown"

/-- The `payment_method` when-chain of
`NYCTaxiGlueETL.add_business_transformations` (lines 158-167): codes 1-6
mapped, default `"Other"`. -/
def payment_method_glue (payment_type : ℤ) : String :=
  if payment_type = 1 then "Credit Card"
  else if payment_type = 2 then "Cash"
  else if payment_type = 3 then "No Charge"
  else if payment_type = 4 then "Dispute"
  else if payment_type = 5 then "Unknown"
  else if payment_type = 6 then "Voided Trip"
  else "Other"

/-- Modelled from the spec: the fixed payment-type mapping
`{1:"Credit Card", 2:"Cash", 3:"No Charge", 4:"Dispute", 5:"Unknown",
6:"Voided Trip"}` that claim C3 asserts both variants follow; `none`
for codes outside 1-6. -/
def fixedPaymentLabel (c : ℤ) : Option String :=
  if c = 1 then some "Credit Card"
  else if c = 2 then some "Cash"
  else if c = 3 then some "No Charge"
  else if c = 4 then some "Dispute"
  else if c = 5 then some "Unknown"
  else if c = 6 then some "Voided Trip"
  else none

/-- The `trip_category` when-chain (lines 208-214). -/
def tripCategory (d : ℚ) : String :=
  if d < 1 then "Short"
  else if 1 ≤ d ∧ d ≤ 5 then "Medium"
  else if 5 ≤ d ∧ d ≤ 15 then "Long"
  else "Extra Long"

/-- A validated row together with all columns added by
`add_derived_columns`. -/
structure EnrichedTrip where
  tpep_pickup_datetime : ℤ
  tpep_dropoff_datetime : ℤ
  passenger_count : ℤ
  trip_distance : ℚ
  fare_amount : ℚ
  tip_amount : ℚ
  total_amount : ℚ
  payment_type : ℤ
  trip_duration_minutes : ℚ
  pickup_hour : ℕ
  pickup_day_of_week : ℤ
  time_of_day : String
  day_type : String
  speed_mph : ℚ
  fare_per_mile : ℚ
  tip_percentage : ℚ
  payment_label : String
  trip_category : String
deriving DecidableEq, Repr

/-- The per-row column derivations of `add_derived_columns`
(lines 150-214). -/
def enrich (t : Trip) : EnrichedTrip :=
  { tpep_pickup_datetime := t.tpep_pickup_datetime
    tpep_dropoff_datetime := t.tpep_dropoff_datetime
    passenger_count := t.passenger_count
    trip_distance := t.trip_distance
    fare_amount := t.fare_amount
    tip_amount := t.tip_amount
    total_amount := t.total_amount
    payment_type := t.payment_type
    trip_duration_minutes := tripDurationMinutes t
    pickup_hour := hourOf t.tpep_pickup_datetime
    pickup_day_of_week := dayOfWeekOf t.tpep_pickup_datetime
    time_of_day := time_of_day_category (hourOf t.tpep_pickup_datetime)
    day_type := dayType (dayOfWeekOf t.tpep_pickup_datetime)
    speed_mph := speedMph t
    fare_per_mile := farePerMile t
    tip_percentage := tipPercentage t
    payment_label := payment_method t.payment_type
    trip_category := tripCategory t.trip_distance }

/-- `NYCTaxiTransformer.add_derived_columns`: derive the columns row by
row, then `filter(col("speed_mph") <= 80)` (line 217). -/
def add_derived_columns (rows : List Trip) : List EnrichedTrip :=
  (rows.map enrich).filter fun e => decide (e.speed_mph ≤ 80)

/-!
### Quality Flagger (`NYCTaxiTransformer.add_data_quality_flags`)
-/

/-- `quality_flag_speed` when-chain (lines 228-233). -/
def qualityFlagSpeed (s : ℚ) : String :=
  if 50 < s then "High Speed"
  else if s < 1/2 then "Very Slow"
  else "Normal"

/-- `quality_flag_fare` when-chain (lines 234-239). -/
def qualityFlagFare (f : ℚ) : String :=
  if 10 < f then "High Fare Rate"
  else if f < 1 then "Low Fare Rate"
  else "Normal"

/-- `quality_flag_duration` when-chain (lines 240-245). -/
def qualityFlagDuration (d : ℚ) : String :=
  if 60 < d then "Long Trip"
  else if d < 1 then "Very Short"
  else "Normal"

structure FlaggedTrip where
  trip : EnrichedTrip
  quality_flag_speed : String
  quality_flag_fare : String
  quality_flag_duration : String
deriving DecidableEq, Repr

/-- `NYCTaxiTransformer.add_data_quality_flags` (lines 223-247): three
`withColumn` calls, no filter. -/
def add_data_quality_flags (rows : List EnrichedTrip) : List FlaggedTrip :=
  rows.map fun e =>
    { trip := e
      quality_flag_speed := qualityFlagSpeed e.speed_mph
      quality_flag_fare := qualityFlagFare e.fare_per_mile
      quality_flag_duration := qualityFlagDuration e.trip_duration_minutes }

/-!
### Curated aggregations (`NYCTaxiCuratedETL`)

The aggregation job reads the staging rows written by the Glue transform
(`average_speed_mph`, `data_quality_flag`, `rate_code_desc`, ...).
Spark's `groupBy` is modelled by deduplicating the key column and
collecting, per key, the rows that carry it; `count(when(cond, 1))`
counts the rows of the group satisfying `cond` (the `when` without
`otherwise` yields null on the other rows, and `count` skips nulls).
-/

structure StagingRow where
  pickup_date : String
  day_type : String
  pickup_hour : ℕ
  time_of_day : String
  passenger_count : ℤ
  trip_distance : ℚ
  fare_amount : ℚ
  tip_amount : ℚ
  total_amount : ℚ
  trip_duration_minutes : ℚ
  average_speed_mph : ℚ
  fare_per_mile : ℚ
  payment_label : String
  rate_code_desc : String
  data_quality_flag : String
deriving DecidableEq, Repr

def qsum (l : List ℚ) : ℚ := l.foldr (· + ·) 0

def zsum (l : List ℤ) : ℤ := l.foldr (· + ·) 0

def qavg (l : List ℚ) : ℚ := qsum l / l.length

def qmax : List ℚ → ℚ
  | [] => 0
  | x :: xs => xs.foldl max x

def qmin : List ℚ → ℚ
  | [] => 0
  | x :: xs => xs.foldl min x

/-- Grouping key of `create_daily_summary`: `groupBy("pickup_date", "day_type")`. -/
def dailyKey (r : StagingRow) : String × String :=
  (r.pickup_date, r.day_type)

/-- One output row of `NYCTaxiCuratedETL.create_daily_summary`
(`src/scripts/create_curated_aggregations.py`, lines 88-118). -/
structure DailySummaryRow where
  pickup_date : String
  day_type : String
  total_trips : ℕ
  total_revenue : ℚ
  avg_fare : ℚ
  avg_distance : ℚ
  avg_duration : ℚ
  avg_speed : ℚ
  max_fare : ℚ
  min_fare : ℚ
  credit_card_trips : ℕ
  cash_trips : ℕ
  total_passengers : ℤ
  anomaly_trips : ℕ
  revenue_per_trip : ℚ
  credit_card_percentage : ℚ
  avg_passengers_per_trip : ℚ
  anomaly_percentage : ℚ
deriving DecidableEq, Repr

/-- The aggregate expressions of `create_daily_summary` evaluated on one
group. -/
def mkDailySummaryRow (key : String × String) (g : List StagingRow) :
    DailySummaryRow :=
  let total_trips := g.length
  let total_revenue := qsum (g.map (·.total_amount))
  let credit_card_trips :=
    (g.filter fun r => r.payment_label == "Credit Card").length
  let cash_trips := (g.filter fun r => r.payment_label == "Cash").length
  let total_passengers := zsum (g.map (·.passenger_count))
  let anomaly_trips :=
    (g.filter fun r => r.data_quality_flag != "Normal").length
  { pickup_date := key.1
    day_type := key.2
    total_trips := total_trips
    total_revenue := total_revenue
    avg_fare := qavg (g.map (·.total_amount))
    avg_distance := qavg (g.map (·.trip_distance))
    avg_duration := qavg (g.map (·.trip_duration_minutes))
    avg_speed := qavg (g.map (·.average_speed_mph))
    max_fare := qmax (g.map (·.total_amount))
    min_fare := qmin (g.map (·.total_amount))
    credit_card_trips := credit_card_trips
    cash_trips := cash_trips
    total_passengers := total_passengers
    anomaly_trips := anomaly_trips
    revenue_per_trip := sparkRound 2 (total_revenue / total_trips)
    credit_card_percentage :=
      sparkRound 1 ((credit_card_trips : ℚ) / total_trips * 100)
    avg_passengers_per_trip :=
      sparkRound 1 ((total_passengers : ℚ) / total_trips)
    anomaly_percentage :=
      sparkRound 2 ((anomaly_trips : ℚ) / total_trips * 100) }

/-- `NYCTaxiCuratedETL.create_daily_summary`: one output row per distinct
`(pickup_date, day_type)` key. -/
def create_daily_summary (rows : List StagingRow) : List DailySummaryRow :=
  ((rows.map dailyKey).dedup).map fun k =>
    mkDailySummaryRow k (rows.filter fun r => dailyKey r == k)

/-- Grouping key of `create_location_analysis`:
`groupBy("rate_code_desc", "day_type")`. -/
def locationKey (r : StagingRow) : String × String :=
  (r.rate_code_desc, r.day_type)

/-- One output row of `NYCTaxiCuratedETL.create_location_analysis`
(lines 196-215). -/
structure LocationAnalysisRow where
  rate_code_desc : String
  day_type : String
  trip_count : ℕ
  avg_fare : ℚ
  avg_distance : ℚ
  avg_duration : ℚ
  total_revenue : ℚ
  market_share_rank : ℚ
deriving DecidableEq, Repr

/-- The aggregate expressions of `create_location_analysis` on one group;
`market_share_rank` is literally `round(col("trip_count"), 0)`
(lines 210-213). -/
def mkLocationAnalysisRow (key : String × String) (g : List StagingRow) :
    LocationAnalysisRow :=
  { rate_code_desc := key.1
    day_type := key.2
    trip_count := g.length
    avg_fare := qavg (g.map (·.total_amount))
    avg_distance := qavg (g.map (·.trip_distance))
    avg_duration := qavg (g.map (·.trip_duration_minutes))
    total_revenue := qsum (g.map (·.total_amount))
    market_share_rank := sparkRound 0 ((g.length : ℕ) : ℚ) }

/-- `NYCTaxiCuratedETL.create_location_analysis`: one output row per
distinct `(rate_code_desc, day_type)` key. -/
def create_location_analysis (rows : List StagingRow) :
    List LocationAnalysisRow :=
  ((rows.map locationKey).dedup).map fun k =>
    mkLocationAnalysisRow k (rows.filter fun r => locationKey r == k)

/-!
## Claims

Helper lemmas shared across the claim theorems, then one theorem per claim.
-/

lemma imputePassengerCount_pickup (r : RawTrip) :
    (imputePassengerCount r).tpep_pickup_datetime = r.tpep_pickup_datetime := by
  unfold imputePassengerCount
  split_ifs <;> rfl

lemma imputePassengerCount_dropoff (r : RawTrip) :
    (imputePassengerCount r).tpep_dropoff_datetime = r.tpep_dropoff_datetime := by
  unfold imputePassengerCount
  split_ifs <;> rfl

lemma imputePassengerCount_distance (r : RawTrip) :
    (imputePassengerCount r).trip_distance = r.trip_distance := by
  unfold imputePassengerCount
  split_ifs <;> rfl

lemma imputePassengerCount_fare (r : RawTrip) :
    (imputePassengerCount r).fare_amount = r.fare_amount := by
  unfold imputePassengerCount
  split_ifs <;> rfl

lemma imputePassengerCount_total (r : RawTrip) :
    (imputePassengerCount r).total_amount = r.total_amount := by
  unfold imputePassengerCount
  split_ifs <;> rfl

/-- Any record of `clean_data`'s output is the imputation of an input
record that passed the four value filters, and itself passes the
pickup-before-dropoff filter. -/
lemma mem_clean_data {rows : List RawTrip} {r : RawTrip}
    (h : r ∈ clean_data rows) :
    ∃ r₀ ∈ rows, r = imputePassengerCount r₀ ∧
      0 ≤ r₀.trip_distance ∧ r₀.trip_distance ≤ MAX_TRIP_DISTANCE ∧
      MIN_FARE_AMOUNT ≤ r₀.fare_amount ∧ r₀.fare_amount ≤ MAX_FARE_AMOUNT ∧
      0 ≤ r₀.total_amount ∧ pickupBeforeDropoff r = true := by
  unfold clean_data at h
  rw [List.mem_filter] at h
  obtain ⟨h5, hlt⟩ := h
  rw [List.mem_map] at h5
  obtain ⟨r₀, h4, rfl⟩ := h5
  rw [List.mem_filter] at h4
  obtain ⟨h3, htot⟩ := h4
  rw [List.mem_filter] at h3
  obtain ⟨h2, hfare⟩ := h3
  rw [List.mem_filter] at h2
  obtain ⟨h1, hdist⟩ := h2
  rw [List.mem_filter] at h1
  obtain ⟨hmem, _⟩ := h1
  simp only [Bool.and_eq_true, decide_eq_true_eq] at hdist hfare htot
  exact ⟨r₀, hmem, rfl, hdist.1, hdist.2, hfare.1, hfare.2, htot, hlt⟩

lemma clean_data_length_le (rows : List RawTrip) :
    (clean_data rows).length ≤ rows.length := by
  unfold clean_data
  refine le_trans (List.length_filter_le _ _) ?_
  rw [List.length_map]
  refine le_trans (List.length_filter_le _ _) ?_
  refine le_trans (List.length_filter_le _ _) ?_
  refine le_trans (List.length_filter_le _ _) ?_
  exact List.length_filter_le _ _

/-- An otherwise-valid raw record whose passenger count is negative: it
passes every cleaning filter and the imputation leaves the negative count
in place. -/
def negPassengerRaw : RawTrip :=
  { tpep_pickup_datetime := some 0
    tpep_dropoff_datetime := some 60
    passenger_count := some (-1)
    trip_distance := 1
    fare_amount := 10
    tip_amount := 0
    total_amount := 10
    payment_type := 1 }

/-- A raw record with passenger count zero (imputed to 1). -/
def zeroPassengerRaw : RawTrip :=
  { tpep_pickup_datetime := some 0
    tpep_dropoff_datetime := some 60
    passenger_count := some 0
    trip_distance := 1
    fare_amount := 10
    tip_amount := 0
    total_amount := 10
    payment_type := 2 }

/-- C1 fails as stated: a raw record with passenger count `-1` survives
every cleaning rule unchanged, so the output violates
`passenger count ≥ 1`. -/
theorem C1_counterexample :
    ∃ r ∈ clean_data [negPassengerRaw],
      ∃ v, r.passenger_count = some v ∧ v < 1 := by
  refine ⟨negPassengerRaw, by decide, -1, by decide, by decide⟩

/-- C1 amended: every output record of the Validator/Cleaner satisfies
pickup < dropoff, 0 ≤ distance ≤ 100, 0 ≤ fare ≤ 500, total ≥ 0, and its
passenger count is neither null nor zero (null/zero is imputed to 1, never
rejected); `passenger count ≥ 1` additionally holds provided no input
record carries a negative passenger count (a negative count passes through
unchanged). -/
theorem C1_clean_invariants (rows : List RawTrip) :
    ∀ r ∈ clean_data rows,
      (∃ p d, r.tpep_pickup_datetime = some p ∧
        r.tpep_dropoff_datetime = some d ∧ p < d) ∧
      0 ≤ r.trip_distance ∧ r.trip_distance ≤ 100 ∧
      0 ≤ r.fare_amount ∧ r.fare_amount ≤ 500 ∧
      0 ≤ r.total_amount ∧
      r.passenger_count ≠ none ∧ r.passenger_count ≠ some 0 ∧
      ((∀ r' ∈ rows, ∀ v, r'.passenger_count = some v → 0 ≤ v) →
        ∀ v, r.passenger_count = some v → 1 ≤ v) := by
  intro r hr
  obtain ⟨r₀, hmem, rfl, hd1, hd2, hf1, hf2, ht, hlt⟩ := mem_clean_data hr
  have hdist := imputePassengerCount_distance r₀
  have hfare := imputePassengerCount_fare r₀
  have htot := imputePassengerCount_total r₀
  refine ⟨?_, ?_, ?_, ?_, ?_, ?_, ?_, ?_, ?_⟩
  · unfold pickupBeforeDropoff at hlt
    rcases hp : (imputePassengerCount r₀).tpep_pickup_datetime with _ | p <;>
      rcases hq : (imputePassengerCount r₀).tpep_dropoff_datetime with _ | d <;>
      rw [hp, hq] at hlt <;> simp only [decide_eq_true_eq] at hlt
    · exact absurd hlt (by simp)
    · exact absurd hlt (by simp)
    · exact absurd hlt (by simp)
    · exact ⟨p, d, rfl, rfl, hlt⟩
  · rw [hdist]; exact hd1
  · rw [hdist]; exact hd2.trans_eq (by norm_num [MAX_TRIP_DISTANCE])
  · rw [hfare]; exact le_of_eq_of_le (by norm_num [MIN_FARE_AMOUNT]) hf1
  · rw [hfare]; exact hf2.trans_eq (by norm_num [MAX_FARE_AMOUNT])
  · rw [htot]; exact ht
  · unfold imputePassengerCount
    split_ifs with h
    · simp
    · push_neg at h
      exact h.1
  · unfold imputePassengerCount
    split_ifs with h
    · simp
    · push_neg at h
      exact h.2
  · intro hin v hv
    unfold imputePassengerCount at hv
    split_ifs at hv with h
    · have hv' : some (1 : ℤ) = some v := hv
      simp only [Option.some.injEq] at hv'
      omega
    · push_neg at h
      have h0 := hin r₀ hmem v hv
      have hne : v ≠ 0 := by
        intro hv0
        exact h.2 (hv0 ▸ hv)
      omega

/-- Witness for C1: on an input whose only record has passenger count 0
(nonnegative), the surviving record's passenger count, 1, is at least 1. -/
theorem C1_clean_invariants_witness :
    (imputePassengerCount zeroPassengerRaw).passenger_count = some 1 ∧
      (1 : ℤ) ≤ 1 := by
  have h := C1_clean_invariants [zeroPassengerRaw]
    (imputePassengerCount zeroPassengerRaw) (by decide)
  refine ⟨rfl, h.2.2.2.2.2.2.2.2 ?_ 1 rfl⟩
  intro r' hr' v hv
  rw [List.mem_singleton] at hr'
  subst hr'
  rw [show zeroPassengerRaw.passenger_count = some 0 from rfl] at hv
  simp only [Option.some.injEq] at hv
  omega

/-- C2 fails as stated: in the Glue variant the Evening bucket is the
half-open `[18, 22)`, so pickup hour 22 gets "Night", not "Evening". -/
theorem C2_counterexample :
    time_of_day_category_glue 22 = "Night" ∧
    time_of_day_category_glue 22 ≠ "Evening" := by
  constructor <;> decide

/-- C2 amended: for every hour 0-23, both variants agree on Morning =
[6,11], Afternoon = [12,17] and on Night over 0-5 and 23; Evening is
[18,22] in the transformer variant but only [18,21] in the Glue variant,
whose Night bucket additionally covers hour 22. -/
theorem C2_time_of_day (h : ℕ) (hh : h < 24) :
    (6 ≤ h ∧ h ≤ 11 →
      time_of_day_category h = "Morning" ∧
      time_of_day_category_glue h = "Morning") ∧
    (12 ≤ h ∧ h ≤ 17 →
      time_of_day_category h = "Afternoon" ∧
      time_of_day_category_glue h = "Afternoon") ∧
    (18 ≤ h ∧ h ≤ 21 →
      time_of_day_category h = "Evening" ∧
      time_of_day_category_glue h = "Evening") ∧
    (h = 22 →
      time_of_day_category h = "Evening" ∧
      time_of_day_category_glue h = "Night") ∧
    (h ≤ 5 ∨ h = 23 →
      time_of_day_category h = "Night" ∧
      time_of_day_category_glue h = "Night") := by
  revert hh
  revert h
  decide

/-- Witness for C2 at hour 22: the transformer says Evening, the Glue
variant says Night. -/
theorem C2_time_of_day_witness :
    time_of_day_category 22 = "Evening" ∧
    time_of_day_category_glue 22 = "Night" :=
  (C2_time_of_day 22 (by decide)).2.2.2.1 rfl

/-- C3 fails as stated: the transformer variant maps only codes 1-4, so
payment type 6 gets the default "Unknown" instead of "Voided Trip". -/
theorem C3_counterexample :
    payment_method 6 = "Unknown" ∧ payment_method 6 ≠ "Voided Trip" := by
  constructor <;> decide

/-- C3 amended: the Glue variant follows the full fixed mapping on codes
1-6 with default "Other" outside it; the transformer variant follows the
fixed mapping only on codes 1-4 and labels every other code (including 5,
6 and 9) "Unknown", which coincides with the fixed mapping at 5 but not
at 6. Payment type 2 maps to "Cash" in both variants. -/
theorem C3_payment_mapping (c : ℤ) :
    payment_method_glue c = (fixedPaymentLabel c).getD "Other" ∧
    (c = 1 ∨ c = 2 ∨ c = 3 ∨ c = 4 →
      payment_method c = (fixedPaymentLabel c).getD "Other") ∧
    (¬(c = 1 ∨ c = 2 ∨ c = 3 ∨ c = 4) → payment_method c = "Unknown") ∧
    payment_method 2 = "Cash" ∧ payment_method_glue 2 = "Cash" := by
  refine ⟨?_, ?_, ?_, by decide, by decide⟩
  · unfold payment_method_glue fixedPaymentLabel
    split_ifs <;> rfl
  · intro hc
    unfold payment_method fixedPaymentLabel
    rcases hc with rfl | rfl | rfl | rfl <;> rfl
  · intro hc
    push_neg at hc
    obtain ⟨h1, h2, h3, h4⟩ := hc
    unfold payment_method
    rw [if_neg h1, if_neg h2, if_neg h3, if_neg h4]

/-- Witness for C3 at the unknown code 9: default labels per variant. -/
theorem C3_payment_mapping_witness :
    payment_method 9 = "Unknown" ∧ payment_method_glue 9 = "Other" := by
  have h := C3_payment_mapping 9
  exact ⟨h.2.2.1 (by decide), by rw [h.1]; decide⟩

/-- C4: the cleaning report exists for exactly the non-empty inputs; the
empty input is the single fatal case (the percentage's division by the
original count). -/
theorem C4_report_totality (rows : List RawTrip) :
    ((cleanReport rows).isSome ↔ rows ≠ []) ∧
    (cleanReport rows = none ↔ rows = []) := by
  unfold cleanReport
  by_cases h : rows.length = 0
  · rw [List.length_eq_zero] at h
    subst h
    simp
  · have h' : rows ≠ [] := by
      intro he
      exact h (by rw [he]; rfl)
    simp [h, h']

/-- C9: for every non-empty input the report satisfies
`removed = original - final`, `removed ≥ 0` (the cleaner never grows the
row set) and `removal_percentage = removed / original * 100`. -/
theorem C9_report_arithmetic (rows : List RawTrip) (hne : rows ≠ []) :
    ∃ rep, cleanReport rows = some rep ∧
      rep.original_count = rows.length ∧
      rep.final_count = (clean_data rows).length ∧
      rep.final_count ≤ rep.original_count ∧
      rep.removed_count = (rep.original_count : ℤ) - (rep.final_count : ℤ) ∧
      0 ≤ rep.removed_count ∧
      rep.removal_percentage =
        (rep.removed_count : ℚ) / (rep.original_count : ℚ) * 100 := by
  have h : rows.length ≠ 0 := by
    intro h0
    exact hne (List.length_eq_zero.mp h0)
  have hle := clean_data_length_le rows
  refine ⟨_, by unfold cleanReport; rw [if_neg h], rfl, rfl, hle, rfl, ?_, rfl⟩
  show (0 : ℤ) ≤ (rows.length : ℤ) - ((clean_data rows).length : ℤ)
  omega

/-- Witness for C9 on a concrete singleton input. -/
theorem C9_report_arithmetic_witness :
    ∃ rep, cleanReport [zeroPassengerRaw] = some rep ∧
      rep.original_count = [zeroPassengerRaw].length ∧
      rep.final_count = (clean_data [zeroPassengerRaw]).length ∧
      rep.final_count ≤ rep.original_count ∧
      rep.removed_count = (rep.original_count : ℤ) - (rep.final_count : ℤ) ∧
      0 ≤ rep.removed_count ∧
      rep.removal_percentage =
        (rep.removed_count : ℚ) / (rep.original_count : ℚ) * 100 :=
  C9_report_arithmetic [zeroPassengerRaw] (by simp)

/-- The spec scenario trip: 10 miles in 20 minutes (1200 seconds). -/
def tripTwentyMin : Trip :=
  { tpep_pickup_datetime := 0
    tpep_dropoff_datetime := 1200
    passenger_count := 1
    trip_distance := 10
    fare_amount := 20
    tip_amount := 2
    total_amount := 25
    payment_type := 1 }

/-- The spec scenario trip: 10 miles in 5 minutes (300 seconds). -/
def tripFiveMin : Trip :=
  { tpep_pickup_datetime := 0
    tpep_dropoff_datetime := 300
    passenger_count := 1
    trip_distance := 10
    fare_amount := 20
    tip_amount := 2
    total_amount := 25
    payment_type := 1 }

lemma tripDurationMinutes_twentyMin : tripDurationMinutes tripTwentyMin = 20 := by
  norm_num [tripDurationMinutes, sparkRound, roundHalfUp, tripTwentyMin,
    Int.floor_eq_iff]

lemma tripDurationMinutes_fiveMin : tripDurationMinutes tripFiveMin = 5 := by
  norm_num [tripDurationMinutes, sparkRound, roundHalfUp, tripFiveMin,
    Int.floor_eq_iff]

lemma speedMph_twentyMin : speedMph tripTwentyMin = 30 := by
  rw [speedMph, tripDurationMinutes_twentyMin]
  norm_num [sparkRound, roundHalfUp, tripTwentyMin, Int.floor_eq_iff]

lemma speedMph_fiveMin : speedMph tripFiveMin = 120 := by
  rw [speedMph, tripDurationMinutes_fiveMin]
  norm_num [sparkRound, roundHalfUp, tripFiveMin, Int.floor_eq_iff]

lemma add_derived_scenario :
    add_derived_columns [tripTwentyMin, tripFiveMin] = [enrich tripTwentyMin] := by
  unfold add_derived_columns
  simp only [List.map_cons, List.map_nil, List.filter_cons, List.filter_nil]
  rw [show (enrich tripTwentyMin).speed_mph = speedMph tripTwentyMin from rfl,
    show (enrich tripFiveMin).speed_mph = speedMph tripFiveMin from rfl,
    speedMph_twentyMin, speedMph_fiveMin]
  norm_num

lemma enrich_scenario_ne : enrich tripTwentyMin ≠ enrich tripFiveMin := by
  intro h
  have h2 := congrArg EnrichedTrip.tpep_dropoff_datetime h
  simp only [enrich, tripTwentyMin, tripFiveMin] at h2
  omega

/-- C5: the post-derivation filter keeps exactly the enriched rows with
speed at most 80 mph; the 20-minute scenario trip (speed 30.00) survives
into the flagged output, the 5-minute scenario trip (speed 120.00) is
dropped and never appears there. -/
theorem C5_speed_filter (rows : List Trip) :
    (∀ e ∈ add_derived_columns rows, e.speed_mph ≤ 80) ∧
    (∀ t ∈ rows, (enrich t).speed_mph ≤ 80 →
      enrich t ∈ add_derived_columns rows) ∧
    (∀ e ∈ add_derived_columns rows, ∃ t ∈ rows, e = enrich t) ∧
    speedMph tripTwentyMin = 30 ∧
    enrich tripTwentyMin ∈ add_derived_columns [tripTwentyMin, tripFiveMin] ∧
    speedMph tripFiveMin = 120 ∧
    (∀ f ∈ add_data_quality_flags
        (add_derived_columns [tripTwentyMin, tripFiveMin]),
      f.trip ≠ enrich tripFiveMin) := by
  refine ⟨?_, ?_, ?_, speedMph_twentyMin, ?_, speedMph_fiveMin, ?_⟩
  · intro e he
    unfold add_derived_columns at he
    rw [List.mem_filter] at he
    exact (decide_eq_true_eq).mp he.2
  · intro t ht hle
    unfold add_derived_columns
    rw [List.mem_filter]
    exact ⟨List.mem_map_of_mem enrich ht, decide_eq_true hle⟩
  · intro e he
    unfold add_derived_columns at he
    rw [List.mem_filter] at he
    obtain ⟨t, ht, rfl⟩ := List.mem_map.mp he.1
    exact ⟨t, ht, rfl⟩
  · rw [add_derived_scenario]
    exact List.mem_singleton.mpr rfl
  · intro f hf
    rw [add_derived_scenario] at hf
    unfold add_data_quality_flags at hf
    simp only [List.map_cons, List.map_nil, List.mem_singleton] at hf
    subst hf
    exact enrich_scenario_ne

/-- Witness for C5: the surviving scenario trip is kept by the filter. -/
theorem C5_speed_filter_witness :
    enrich tripTwentyMin ∈ add_derived_columns [tripTwentyMin] :=
  (C5_speed_filter [tripTwentyMin]).2.1 tripTwentyMin
    (List.mem_singleton.mpr rfl)
    (by rw [show (enrich tripTwentyMin).speed_mph = speedMph tripTwentyMin
          from rfl, speedMph_twentyMin]; norm_num)

/-- C6: the three per-row ratio columns follow the spec formulas with a
zero-denominator guard yielding 0 and rounding to 2 decimals. -/
theorem C6_ratio_guards (t : Trip) :
    (0 < (enrich t).trip_duration_minutes →
      (enrich t).speed_mph =
        sparkRound 2 (t.trip_distance / (enrich t).trip_duration_minutes * 60)) ∧
    ((enrich t).trip_duration_minutes ≤ 0 → (enrich t).speed_mph = 0) ∧
    (0 < t.trip_distance →
      (enrich t).fare_per_mile = sparkRound 2 (t.fare_amount / t.trip_distance)) ∧
    (t.trip_distance ≤ 0 → (enrich t).fare_per_mile = 0) ∧
    (0 < t.fare_amount →
      (enrich t).tip_percentage =
        sparkRound 2 (t.tip_amount / t.fare_amount * 100)) ∧
    (t.fare_amount ≤ 0 → (enrich t).tip_percentage = 0) := by
  refine ⟨?_, ?_, ?_, ?_, ?_, ?_⟩
  · intro h
    have h' : 0 < tripDurationMinutes t := h
    show speedMph t = sparkRound 2 (t.trip_distance / tripDurationMinutes t * 60)
    rw [speedMph, if_pos h']
  · intro h
    have h' : tripDurationMinutes t ≤ 0 := h
    show speedMph t = 0
    rw [speedMph, if_neg (not_lt.mpr h')]
  · intro h
    show farePerMile t = _
    rw [farePerMile, if_pos h]
  · intro h
    show farePerMile t = 0
    rw [farePerMile, if_neg (not_lt.mpr h)]
  · intro h
    show tipPercentage t = _
    rw [tipPercentage, if_pos h]
  · intro h
    show tipPercentage t = 0
    rw [tipPercentage, if_neg (not_lt.mpr h)]

/-- Witness for C6 on the 20-minute scenario trip (positive duration,
distance and fare). -/
theorem C6_ratio_guards_witness :
    (enrich tripTwentyMin).speed_mph =
      sparkRound 2 (tripTwentyMin.trip_distance /
        (enrich tripTwentyMin).trip_duration_minutes * 60) ∧
    (enrich tripTwentyMin).fare_per_mile =
      sparkRound 2 (tripTwentyMin.fare_amount / tripTwentyMin.trip_distance) ∧
    (enrich tripTwentyMin).tip_percentage =
      sparkRound 2 (tripTwentyMin.tip_amount / tripTwentyMin.fare_amount * 100) := by
  have h := C6_ratio_guards tripTwentyMin
  have hd : 0 < (enrich tripTwentyMin).trip_duration_minutes := by
    show 0 < tripDurationMinutes tripTwentyMin
    rw [tripDurationMinutes_twentyMin]
    norm_num
  exact ⟨h.1 hd, h.2.2.1 (by norm_num [tripTwentyMin]),
    h.2.2.2.2.1 (by norm_num [tripTwentyMin])⟩

lemma qualityFlagSpeed_spec (s : ℚ) :
    (qualityFlagSpeed s = "High Speed" ↔ 50 < s) ∧
    (qualityFlagSpeed s = "Very Slow" ↔ s < 1/2) ∧
    (qualityFlagSpeed s = "Normal" ↔ 1/2 ≤ s ∧ s ≤ 50) := by
  unfold qualityFlagSpeed
  split_ifs with h1 h2
  · exact ⟨⟨fun _ => h1, fun _ => rfl⟩,
      ⟨fun h => absurd h (by decide), fun h => absurd h (by intro hh; linarith)⟩,
      ⟨fun h => absurd h (by decide), fun h => absurd h1 (not_lt.mpr h.2)⟩⟩
  · exact ⟨⟨fun h => absurd h (by decide), fun h => absurd h h1⟩,
      ⟨fun _ => h2, fun _ => rfl⟩,
      ⟨fun h => absurd h (by decide), fun h => absurd h2 (not_lt.mpr h.1)⟩⟩
  · exact ⟨⟨fun h => absurd h (by decide), fun h => absurd h h1⟩,
      ⟨fun h => absurd h (by decide), fun h => absurd h h2⟩,
      ⟨fun _ => ⟨not_lt.mp h2, not_lt.mp h1⟩, fun _ => rfl⟩⟩

lemma qualityFlagFare_spec (f : ℚ) :
    (qualityFlagFare f = "High Fare Rate" ↔ 10 < f) ∧
    (qualityFlagFare f = "Low Fare Rate" ↔ f < 1) ∧
    (qualityFlagFare f = "Normal" ↔ 1 ≤ f ∧ f ≤ 10) := by
  unfold qualityFlagFare
  split_ifs with h1 h2
  · exact ⟨⟨fun _ => h1, fun _ => rfl⟩,
      ⟨fun h => absurd h (by decide), fun h => absurd h (by intro hh; linarith)⟩,
      ⟨fun h => absurd h (by decide), fun h => absurd h1 (not_lt.mpr h.2)⟩⟩
  · exact ⟨⟨fun h => absurd h (by decide), fun h => absurd h h1⟩,
      ⟨fun _ => h2, fun _ => rfl⟩,
      ⟨fun h => absurd h (by decide), fun h => absurd h2 (not_lt.mpr h.1)⟩⟩
  · exact ⟨⟨fun h => absurd h (by decide), fun h => absurd h h1⟩,
      ⟨fun h => absurd h (by decide), fun h => absurd h h2⟩,
      ⟨fun _ => ⟨not_lt.mp h2, not_lt.mp h1⟩, fun _ => rfl⟩⟩

lemma qualityFlagDuration_spec (d : ℚ) :
    (qualityFlagDuration d = "Long Trip" ↔ 60 < d) ∧
    (qualityFlagDuration d = "Very Short" ↔ d < 1) ∧
    (qualityFlagDuration d = "Normal" ↔ 1 ≤ d ∧ d ≤ 60) := by
  unfold qualityFlagDuration
  split_ifs with h1 h2
  · exact ⟨⟨fun _ => h1, fun _ => rfl⟩,
      ⟨fun h => absurd h (by decide), fun h => absurd h (by intro hh; linarith)⟩,
      ⟨fun h => absurd h (by decide), fun h => absurd h1 (not_lt.mpr h.2)⟩⟩
  · exact ⟨⟨fun h => absurd h (by decide), fun h => absurd h h1⟩,
      ⟨fun _ => h2, fun _ => rfl⟩,
      ⟨fun h => absurd h (by decide), fun h => absurd h2 (not_lt.mpr h.1)⟩⟩
  · exact ⟨⟨fun h => absurd h (by decide), fun h => absurd h h1⟩,
      ⟨fun h => absurd h (by decide), fun h => absurd h h2⟩,
      ⟨fun _ => ⟨not_lt.mp h2, not_lt.mp h1⟩, fun _ => rfl⟩⟩

/-- C8: the Quality Flagger preserves the row count (no removal) and
attaches to each surviving row exactly the three categorical flags given
by the thresholded rules on speed, fare-per-mile and duration. -/
theorem C8_quality_flags (rows : List EnrichedTrip) :
    (add_data_quality_flags rows).length = rows.length ∧
    ∀ f ∈ add_data_quality_flags rows,
      f.trip ∈ rows ∧
      (f.quality_flag_speed = "High Speed" ↔ 50 < f.trip.speed_mph) ∧
      (f.quality_flag_speed = "Very Slow" ↔ f.trip.speed_mph < 1/2) ∧
      (f.quality_flag_speed = "Normal" ↔
        1/2 ≤ f.trip.speed_mph ∧ f.trip.speed_mph ≤ 50) ∧
      (f.quality_flag_fare = "High Fare Rate" ↔ 10 < f.trip.fare_per_mile) ∧
      (f.quality_flag_fare = "Low Fare Rate" ↔ f.trip.fare_per_mile < 1) ∧
      (f.quality_flag_fare = "Normal" ↔
        1 ≤ f.trip.fare_per_mile ∧ f.trip.fare_per_mile ≤ 10) ∧
      (f.quality_flag_duration = "Long Trip" ↔
        60 < f.trip.trip_duration_minutes) ∧
      (f.quality_flag_duration = "Very Short" ↔
        f.trip.trip_duration_minutes < 1) ∧
      (f.quality_flag_duration = "Normal" ↔
        1 ≤ f.trip.trip_duration_minutes ∧ f.trip.trip_duration_minutes ≤ 60) := by
  constructor
  · unfold add_data_quality_flags
    exact List.length_map _ _
  · intro f hf
    unfold add_data_quality_flags at hf
    rw [List.mem_map] at hf
    obtain ⟨e, he, rfl⟩ := hf
    obtain ⟨hs1, hs2, hs3⟩ := qualityFlagSpeed_spec e.speed_mph
    obtain ⟨hf1, hf2, hf3⟩ := qualityFlagFare_spec e.fare_per_mile
    obtain ⟨hd1, hd2, hd3⟩ := qualityFlagDuration_spec e.trip_duration_minutes
    exact ⟨he, hs1, hs2, hs3, hf1, hf2, hf3, hd1, hd2, hd3⟩

/-- The flagged record of the 20-minute scenario trip. -/
def flaggedTwentyMin : FlaggedTrip :=
  { trip := enrich tripTwentyMin
    quality_flag_speed := qualityFlagSpeed (enrich tripTwentyMin).speed_mph
    quality_flag_fare := qualityFlagFare (enrich tripTwentyMin).fare_per_mile
    quality_flag_duration :=
      qualityFlagDuration (enrich tripTwentyMin).trip_duration_minutes }

/-- Witness for C8 on the 20-minute scenario trip. -/
theorem C8_quality_flags_witness :
    flaggedTwentyMin.trip ∈ [enrich tripTwentyMin] ∧
    (flaggedTwentyMin.quality_flag_speed = "High Speed" ↔
      50 < flaggedTwentyMin.trip.speed_mph) :=
  have h := (C8_quality_flags [enrich tripTwentyMin]).2 flaggedTwentyMin
    (List.mem_singleton.mpr rfl)
  ⟨h.1, h.2.1⟩

lemma div_mul_hundred_bounds {c n : ℕ} (hcn : c ≤ n) :
    0 ≤ ((c : ℚ) / (n : ℚ)) * 100 ∧ ((c : ℚ) / (n : ℚ)) * 100 ≤ 100 := by
  rcases Nat.eq_zero_or_pos n with hn | hn
  · subst hn
    have hc : c = 0 := Nat.le_zero.mp hcn
    subst hc
    norm_num
  · have hnq : (0 : ℚ) < (n : ℚ) := by exact_mod_cast hn
    have hdiv : (c : ℚ) / (n : ℚ) ≤ 1 := by
      rw [div_le_one hnq]
      exact_mod_cast hcn
    have hdiv0 : (0 : ℚ) ≤ (c : ℚ) / (n : ℚ) := by positivity
    constructor <;> nlinarith

/-- C10: in every daily-summary row the conditional counts are bounded by
the group size, and the two percentage columns lie in [0, 100]. -/
theorem C10_daily_summary_bounds (rows : List StagingRow) :
    ∀ row ∈ create_daily_summary rows,
      row.credit_card_trips ≤ row.total_trips ∧
      row.cash_trips ≤ row.total_trips ∧
      row.anomaly_trips ≤ row.total_trips ∧
      0 ≤ row.credit_card_percentage ∧ row.credit_card_percentage ≤ 100 ∧
      0 ≤ row.anomaly_percentage ∧ row.anomaly_percentage ≤ 100 := by
  intro row hrow
  unfold create_daily_summary at hrow
  rw [List.mem_map] at hrow
  obtain ⟨k, _, rfl⟩ := hrow
  set g := rows.filter (fun r => dailyKey r == k) with hg
  have hcc : (g.filter fun r => r.payment_label == "Credit Card").length ≤
      g.length := List.length_filter_le _ _
  have hcash : (g.filter fun r => r.payment_label == "Cash").length ≤
      g.length := List.length_filter_le _ _
  have hanom : (g.filter fun r => r.data_quality_flag != "Normal").length ≤
      g.length := List.length_filter_le _ _
  have hccpct := div_mul_hundred_bounds hcc
  have hanompct := div_mul_hundred_bounds hanom
  refine ⟨hcc, hcash, hanom, ?_, ?_, ?_, ?_⟩
  · exact sparkRound_nonneg 1 hccpct.1
  · exact sparkRound_le_hundred 1 hccpct.1 hccpct.2
  · exact sparkRound_nonneg 2 hanompct.1
  · exact sparkRound_le_hundred 2 hanompct.1 hanompct.2

/-- Staging rows used to exercise the curated aggregations: two trips on
the Standard Rate, one on the JFK rate, all weekday trips of one date. -/
def stagingStdA : StagingRow :=
  { pickup_date := "2024-02-05"
    day_type := "Weekday"
    pickup_hour := 9
    time_of_day := "Morning"
    passenger_count := 1
    trip_distance := 2
    fare_amount := 10
    tip_amount := 1
    total_amount := 12
    trip_duration_minutes := 15
    average_speed_mph := 8
    fare_per_mile := 5
    payment_label := "Cash"
    rate_code_desc := "Standard Rate"
    data_quality_flag := "Normal" }

def stagingStdB : StagingRow :=
  { pickup_date := "2024-02-05"
    day_type := "Weekday"
    pickup_hour := 10
    time_of_day := "Morning"
    passenger_count := 2
    trip_distance := 3
    fare_amount := 12
    tip_amount := 2
    total_amount := 15
    trip_duration_minutes := 18
    average_speed_mph := 10
    fare_per_mile := 4
    payment_label := "Credit Card"
    rate_code_desc := "Standard Rate"
    data_quality_flag := "Normal" }

def stagingJfk : StagingRow :=
  { pickup_date := "2024-02-05"
    day_type := "Weekday"
    pickup_hour := 14
    time_of_day := "Afternoon"
    passenger_count := 1
    trip_distance := 17
    fare_amount := 60
    tip_amount := 10
    total_amount := 70
    trip_duration_minutes := 40
    average_speed_mph := 26
    fare_per_mile := 4
    payment_label := "Credit Card"
    rate_code_desc := "JFK"
    data_quality_flag := "Normal" }

/-- Witness for C10 on a concrete one-group input. -/
theorem C10_daily_summary_bounds_witness :
    (mkDailySummaryRow (dailyKey stagingStdA) [stagingStdA]).credit_card_trips ≤
      (mkDailySummaryRow (dailyKey stagingStdA) [stagingStdA]).total_trips ∧
    0 ≤ (mkDailySummaryRow (dailyKey stagingStdA) [stagingStdA]).anomaly_percentage :=
  have h := C10_daily_summary_bounds [stagingStdA]
    (mkDailySummaryRow (dailyKey stagingStdA) [stagingStdA])
    (List.mem_singleton.mpr rfl)
  ⟨h.1, h.2.2.2.2.2.1⟩

/-- C7 / the `market_share_rank` slip: on a staging input whose
Standard-Rate group holds two trips and whose JFK group holds one, the
output row with the (strictly) largest trip count carries
`market_share_rank = 2` — the column is `round(trip_count, 0)`, i.e. the
raw trip count, not a descending rank starting at 1. -/
theorem C7_market_share_rank_bug :
    ∃ r ∈ create_location_analysis [stagingStdA, stagingStdB, stagingJfk],
      (∀ s ∈ create_location_analysis [stagingStdA, stagingStdB, stagingJfk],
        s.trip_count ≤ r.trip_count) ∧
      r.trip_count = 2 ∧
      r.market_share_rank = (r.trip_count : ℚ) ∧
      r.market_share_rank ≠ 1 := by
  have hloc : create_location_analysis [stagingStdA, stagingStdB, stagingJfk] =
      [mkLocationAnalysisRow ("Standard Rate", "Weekday") [stagingStdA, stagingStdB],
        mkLocationAnalysisRow ("JFK", "Weekday") [stagingJfk]] := by rfl
  have hrank : sparkRound 0 ((2 : ℕ) : ℚ) = 2 := by
    norm_num [sparkRound, roundHalfUp, Int.floor_eq_iff]
  refine ⟨mkLocationAnalysisRow ("Standard Rate", "Weekday")
    [stagingStdA, stagingStdB], ?_, ?_, rfl, ?_, ?_⟩
  · rw [hloc]
    exact List.mem_cons_self _ _
  · intro s hs
    rw [hloc] at hs
    rcases List.mem_cons.mp hs with rfl | hs
    · exact le_refl _
    · rw [List.mem_singleton] at hs
      subst hs
      show 1 ≤ 2
      omega
  · show sparkRound 0 ((2 : ℕ) : ℚ) = ((2 : ℕ) : ℚ)
    rw [hrank]
    norm_num
  · show sparkRound 0 ((2 : ℕ) : ℚ) ≠ 1
    rw [hrank]
    norm_num
